import Mathlib

/-!
Formal model of the crypto-market-snapshot service (src/main.py).

The service is a single-venue (OKX) market-snapshot endpoint built from:
a symbol normalizer, a guarded HTTP GET wrapper, pure label-derivation
helpers, a TTL cache, and one orchestrating request handler.

Modelling conventions:
* Python strings are modelled as Lean `String`, operated on through their
  code-point lists (ASCII model of `str.strip` / `str.upper` /
  `str.isalnum`; Unicode-specific behaviour is out of scope).
* Python floats are modelled as exact rationals `ℚ`; `float(s)` is the
  partial decimal parser `pyFloat` (the special forms inf/nan and digit
  underscores are not modelled, the venue never produces them).
* Exceptions are modelled with `Except`: `HTTPException(status, detail)`
  becomes `SnapErr.httpError`, and an uncaught `ValueError` from a failed
  numeric conversion becomes `SnapErr.valueError` carrying the offending
  string.
* The process-global cache dictionary and wall clock become explicit
  parameters threaded through `marketSnapshot`, which returns the final
  cache state next to the response.
-/

/-- Model of Python `str.strip()`: drop whitespace from both ends. -/
def pyStrip (s : String) : String :=
  String.mk (((s.toList.dropWhile Char.isWhitespace).reverse.dropWhile
    Char.isWhitespace).reverse)

/-- Model of Python `str.upper()` (ASCII). -/
def pyUpper (s : String) : String :=
  String.mk (s.toList.map Char.toUpper)

/-- Model of Python `str.isalnum()`: true iff the string is non-empty and
every character is alphanumeric. -/
def pyIsAlnum (s : String) : Bool :=
  !(s.toList.isEmpty) && s.toList.all Char.isAlphanum

/-- Model of Python `str.endswith(t)`. -/
def pyEndsWith (s t : String) : Bool :=
  List.isSuffixOf t.toList s.toList

/-- Model of the Python slice `s[:-4]`: every character but the last four
(the whole string shorter than four characters collapses to ""). -/
def pySliceToMinus4 (s : String) : String :=
  String.mk (s.toList.take (s.toList.length - 4))

/-- Read a maximal run of decimal digits: returns the value read, how many
digits were consumed, and the rest of the input. -/
def readDigitsAux : List Char → ℕ → ℕ → ℕ × ℕ × List Char
  | [], v, n => (v, n, [])
  | c :: cs, v, n =>
    if c.isDigit then readDigitsAux cs (10 * v + (c.toNat - 48)) (n + 1)
    else (v, n, c :: cs)

/-- Read an optional leading sign; `true` means negative. -/
def readSign : List Char → Bool × List Char
  | '-' :: cs => (true, cs)
  | '+' :: cs => (false, cs)
  | cs => (false, cs)

/-- The digits of a decimal float literal, before any rational arithmetic:
sign, integer-part value, fraction-part value and digit count, exponent
sign and value. Kept arithmetic-free so concrete parses are kernel
decidable. -/
structure FloatParts where
  neg : Bool
  ip : ℕ
  fp : ℕ
  nf : ℕ
  eneg : Bool
  ev : ℕ
deriving DecidableEq

/-- Parse the mantissa of a decimal literal: `digits`, `digits.`,
`digits.digits` or `.digits`. Fails when no digit is present. Returns
(integer part, fraction part, fraction digit count). -/
def readMantissa (cs : List Char) : Option ((ℕ × ℕ × ℕ) × List Char) :=
  let (ip, ni, r1) := readDigitsAux cs 0 0
  match r1 with
  | '.' :: r2 =>
    let (fp, nf, r3) := readDigitsAux r2 0 0
    if ni = 0 ∧ nf = 0 then none
    else some ((ip, fp, nf), r3)
  | _ => if ni = 0 then none else some ((ip, 0, 0), r1)

/-- Parse an optional exponent part `e±digits` that must consume the whole
rest of the input; returns the exponent sign and value. -/
def readExpPart (cs : List Char) : Option (Bool × ℕ) :=
  match cs with
  | [] => some (false, 0)
  | e :: r =>
    if e = 'e' ∨ e = 'E' then
      let (neg, r2) := readSign r
      let (ev, ne, r3) := readDigitsAux r2 0 0
      if ne = 0 ∨ r3 ≠ [] then none
      else some (neg, ev)
    else none

/-- Grammar of Python `float(s)` on strings: strips whitespace, then an
optional sign, a decimal mantissa and an optional exponent. `none` models
a raised `ValueError`. -/
def pyFloatParts (s : String) : Option FloatParts :=
  let cs := (pyStrip s).toList
  let (neg, cs1) := readSign cs
  match readMantissa cs1 with
  | none => none
  | some (m, rest) =>
    match readExpPart rest with
    | none => none
    | some (eneg, ev) => some ⟨neg, m.1, m.2.1, m.2.2, eneg, ev⟩

/-- The exact rational value denoted by a parsed float literal. -/
def partsVal (p : FloatParts) : ℚ :=
  let m : ℚ := (p.ip : ℚ) + (p.fp : ℚ) / ((10 : ℚ) ^ p.nf)
  (if p.neg then -m else m) *
    (if p.eneg then 1 / ((10 : ℚ) ^ p.ev) else ((10 : ℚ) ^ p.ev))

/-- Model of Python `float(s)` on strings, as an exact rational. -/
def pyFloat (s : String) : Option ℚ :=
  (pyFloatParts s).map partsVal

/-- Model of Python `int(s)` on strings: strips whitespace, optional sign,
then decimal digits only. `none` models a raised `ValueError`. -/
def pyInt (s : String) : Option ℤ :=
  let cs := (pyStrip s).toList
  let (neg, cs1) := readSign cs
  let (v, n, rest) := readDigitsAux cs1 0 0
  if n = 0 ∨ rest ≠ [] then none
  else some (if neg then -(v : ℤ) else (v : ℤ))

/-- Two-digit zero padding for time components. -/
def pad2 (n : ℕ) : String :=
  if n < 10 then "0" ++ toString n else toString n

/-- Four-digit zero padding for years. -/
def pad4 (n : ℕ) : String :=
  if n < 10 then "000" ++ toString n
  else if n < 100 then "00" ++ toString n
  else if n < 1000 then "0" ++ toString n
  else toString n

/-- Gregorian civil date from days since the Unix epoch (standard
era/day-of-era decomposition), modelling `datetime.fromtimestamp`'s
calendar arithmetic. Returns (year, month, day). -/
def civilFromDays (z0 : ℤ) : ℤ × ℕ × ℕ :=
  let z := z0 + 719468
  let era := Int.fdiv z 146097
  let doe := (Int.fmod z 146097).toNat
  let yoe := (doe - doe / 1460 + doe / 36524 - doe / 146096) / 365
  let y := (yoe : ℤ) + era * 400
  let doy := doe - (365 * yoe + yoe / 4 - yoe / 100)
  let mp := (5 * doy + 2) / 153
  let d := doy - (153 * mp + 2) / 5 + 1
  let m := if mp < 10 then mp + 3 else mp - 9
  (if m ≤ 2 then y + 1 else y, m, d)

/-- Seconds since the Unix epoch rendered as an ISO-8601 UTC string with
second precision, modelling `strftime("%Y-%m-%dT%H:%M:%SZ", ...)`. -/
def isoOfEpochSeconds (secs : ℤ) : String :=
  let days := Int.fdiv secs 86400
  let sod := (Int.fmod secs 86400).toNat
  let ymd := civilFromDays days
  let yStr := if ymd.1 < 0 then "-" ++ pad4 (-ymd.1).toNat else pad4 ymd.1.toNat
  yStr ++ "-" ++ pad2 ymd.2.1 ++ "-" ++ pad2 ymd.2.2 ++ "T" ++
    pad2 (sod / 3600) ++ ":" ++ pad2 (sod % 3600 / 60) ++ ":" ++
    pad2 (sod % 60) ++ "Z"

/-- Model of `_ms_to_iso`: millisecond-epoch string to ISO-8601 Z.
A falsy input (`None` or `""`) and an unparsable integer both yield
`none` (the Python code catches the exception and returns `None`). -/
def msToIso (ms : Option String) : Option String :=
  match ms with
  | none => none
  | some s =>
    if s = "" then none
    else
      match pyInt s with
      | none => none
      | some msInt => some (isoOfEpochSeconds (Int.fdiv msInt 1000))

/-- Model of `_vol_regime_from_change`. -/
def volRegimeFromChange (pctChange24h : Option ℚ) : Option String :=
  match pctChange24h with
  | none => none
  | some x =>
    let a := abs x
    if a < 2 then some "low"
    else if a < 5 then some "medium"
    else some "high"

/-- Model of `_liquidity_condition_from_quote_vol`. -/
def liquidityConditionFromQuoteVol (volQuote24h : Option ℚ) : Option String :=
  match volQuote24h with
  | none => none
  | some v =>
    if v ≤ 0 then some "thin"
    else if v < 50000000 then some "thin"
    else if v < 300000000 then some "normal"
    else some "crowded"

/-- Model of `_normalize_symbol_to_okx_inst`: strip and upper-case, reject
non-alphanumeric strings and strings not ending in "USDT", else strip the
trailing "USDT" and rejoin as base-USDT-SWAP. `Except.error` carries the
`ValueError` message. -/
def normalizeSymbolToOkxInst (symbol : String) : Except String String :=
  let s := pyUpper (pyStrip symbol)
  if pyIsAlnum s = false then .error "Invalid symbol format."
  else if pyEndsWith s "USDT" = false then
    .error "Only *USDT symbols supported (e.g., BTCUSDT)."
  else .ok (pySliceToMinus4 s ++ "-USDT-SWAP")

/-- Model of Python `a or b` on optional strings: the left operand wins
exactly when it is truthy (present and non-empty). -/
def pyOr (a b : Option String) : Option String :=
  match a with
  | some s => if s = "" then b else some s
  | none => b

/-- The 24h percent change computation of `market_snapshot` (lines
131-136): requires `price` present and `open_24h` neither absent nor
zero. -/
def priceChangeOf (price open24h : Option ℚ) : Option ℚ :=
  match price, open24h with
  | some p, some o => if o = 0 then none else some ((p - o) / o * 100)
  | _, _ => none

/-- One element of the OKX ticker `data` array, restricted to the fields
`market_snapshot` reads. Every field is an optional string, matching the
loosely-typed venue JSON (`dict.get` returns `None` when absent). -/
structure TickerItem where
  last : Option String
  open24h : Option String
  volCcyQuote : Option String
  volCcy24h : Option String
  volCcy : Option String
  ts : Option String
deriving DecidableEq

/-- One element of the OKX funding-rate `data` array. -/
structure FundingItem where
  fundingRate : Option String
deriving DecidableEq

/-- One element of the OKX open-interest `data` array. -/
structure OiItem where
  oiUsd : Option String
  oi : Option String
deriving DecidableEq

/-- An upstream HTTP response as `_okx_get` sees it: transport status,
response text, and the decoded OKX envelope (`code` plus a `data` array).
The envelope `code` is an optional string; the success check of `_okx_get`
accepts a missing code or the code "0" (the numeric 0 accepted by the
Python tuple membership test is subsumed by the string form here). -/
structure OkxResp (α : Type) where
  status : ℕ
  text : String
  code : Option String
  data : List α
deriving DecidableEq

/-- Errors a request can end in: `httpError` models a raised
`HTTPException(status, detail)`; `valueError` models an uncaught
`ValueError` from `float()` on the carried string (a 500-class failure of
the handler). -/
inductive SnapErr where
  | httpError (status : ℕ) (detail : String)
  | valueError (offending : String)
deriving DecidableEq

/-- The canonical snapshot record built by `market_snapshot` (the `result`
dict), with numeric fields as exact rationals. -/
structure Snapshot where
  symbol : String
  exchange : String
  source : String
  venue : String
  instId : String
  price : Option ℚ
  priceQuote : String
  priceChange24h : Option ℚ
  volume24h : Option ℚ
  volume24hUnit : String
  fundingRate : Option ℚ
  openInterest : Option ℚ
  openInterestUnit : Option String
  oiChange : Option ℚ
  longShortRatio : Option ℚ
  volatilityRegime : Option String
  liquidityCondition : Option String
  timestampExchange : Option String
  timestamp : String
deriving DecidableEq

/-- One entry of the process-global `_cache` dictionary: stored-at time
and the cached snapshot. Wall-clock times are modelled as integer seconds
(the TTL comparison only needs their ordering). -/
structure CacheEntry where
  ts : ℤ
  value : Snapshot
deriving DecidableEq

/-- The `_cache` dictionary, as a map from key to optional entry. -/
abbrev Cache := String → Option CacheEntry

/-- Model of `_cache_get`: miss on an absent key; an entry older than the
TTL is popped and reported as a miss; otherwise the stored value is
returned. Returns the resulting cache next to the lookup result. -/
def cacheGet (c : Cache) (key : String) (now ttl : ℤ) :
    Option Snapshot × Cache :=
  match c key with
  | none => (none, c)
  | some item =>
    if ttl < now - item.ts then
      (none, fun k2 => if k2 = key then none else c k2)
    else (some item.value, c)

/-- Model of `_cache_set`: unconditionally overwrite the key with a fresh
stored-at time. -/
def cacheSet (c : Cache) (key : String) (now : ℤ) (v : Snapshot) : Cache :=
  fun k2 => if k2 = key then some ⟨now, v⟩ else c k2

/-- The empty cache. -/
def emptyCache : Cache := fun _ => none

/-- Model of `_okx_get`: a non-200 transport status raises a 502
`HTTPException` embedding the response text; an HTTP-success response
whose envelope code is neither absent, "0" nor 0 raises a 502
`HTTPException`; otherwise the decoded envelope is returned. -/
def okxGet {α : Type} (r : OkxResp α) : Except SnapErr (OkxResp α) :=
  if r.status ≠ 200 then
    .error (.httpError 502 ("OKX upstream error: " ++ r.text))
  else if (match r.code with | none => true | some c => c = "0") = false then
    .error (.httpError 502 ("OKX code error: " ++ (r.code.getD "")))
  else .ok r

/-- Model of `float(s)` used in expression position: an unparsable string
raises (propagates as `SnapErr.valueError`). -/
def pyFloatE (s : String) : Except SnapErr ℚ :=
  match pyFloat s with
  | some q => .ok q
  | none => .error (.valueError s)

/-- Extraction of `price` (line 131): parse `last` when present, else
`None`. The guard is `is not None`, so a present empty string is parsed
(and raises). -/
def parsePrice (t0 : TickerItem) : Except SnapErr (Option ℚ) :=
  match t0.last with
  | none => .ok none
  | some s => (pyFloatE s).map some

/-- Extraction of `open_24h` (line 132): the guard is truthiness, so an
absent or empty value becomes `None` without a parse. -/
def parseOpen24h (t0 : TickerItem) : Except SnapErr (Option ℚ) :=
  match t0.open24h with
  | none => .ok none
  | some s => if s = "" then .ok none else (pyFloatE s).map some

/-- The quote-volume source string (line 140): Python `or`-chain over
`volCcyQuote`, `volCcy24h`, `volCcy`. -/
def volQuoteStr (t0 : TickerItem) : Option String :=
  pyOr (pyOr t0.volCcyQuote t0.volCcy24h) t0.volCcy

/-- Extraction of `volume_24h` (line 141): truthiness-guarded parse of the
`or`-chain result. -/
def parseVolume (t0 : TickerItem) : Except SnapErr (Option ℚ) :=
  match volQuoteStr t0 with
  | none => .ok none
  | some s => if s = "" then .ok none else (pyFloatE s).map some

/-- Extraction of `funding_rate` (line 148): requires a non-empty `data`
array whose head carries a present `fundingRate`; otherwise `None`. -/
def parseFunding (frd : List FundingItem) : Except SnapErr (Option ℚ) :=
  match frd with
  | [] => .ok none
  | f0 :: _ =>
    match f0.fundingRate with
    | none => .ok none
    | some s => (pyFloatE s).map some

/-- Extraction of `open_interest` and its unit (lines 153-162): `oiUsd`
is preferred when present (unit "USD"), else `oi` (unit "contracts"),
else both stay `None`. -/
def parseOi (oid : List OiItem) : Except SnapErr (Option ℚ × Option String) :=
  match oid with
  | [] => .ok (none, none)
  | o0 :: _ =>
    match o0.oiUsd with
    | some s => (pyFloatE s).map (fun q => (some q, some "USD"))
    | none =>
      match o0.oi with
      | some s => (pyFloatE s).map (fun q => (some q, some "contracts"))
      | none => .ok (none, none)

/-- The fetch-and-reconcile body of `market_snapshot` (lines 122-200):
the three guarded upstream calls in order (ticker, funding rate, open
interest), field extraction, derived labels, and assembly of the result
record. The `nowIso` argument stands for `_iso_now()`. -/
def fetchAndBuild (symbol exchange instId : String)
    (tickResp : OkxResp TickerItem) (frResp : OkxResp FundingItem)
    (oiResp : OkxResp OiItem) (nowIso : String) : Except SnapErr Snapshot :=
  match okxGet tickResp with
  | .error e => .error e
  | .ok tick =>
    match tick.data with
    | [] => .error (.httpError 502 ("No ticker data for " ++ instId))
    | t0 :: _ =>
      match parsePrice t0 with
      | .error e => .error e
      | .ok price =>
        match parseOpen24h t0 with
        | .error e => .error e
        | .ok open24h =>
          match parseVolume t0 with
          | .error e => .error e
          | .ok volume =>
            let priceChange := priceChangeOf price open24h
            let tsExchange := msToIso t0.ts
            match okxGet frResp with
            | .error e => .error e
            | .ok fr =>
              match parseFunding fr.data with
              | .error e => .error e
              | .ok fundingRate =>
                match okxGet oiResp with
                | .error e => .error e
                | .ok oi =>
                  match parseOi oi.data with
                  | .error e => .error e
                  | .ok oiPair =>
                    .ok { symbol := pyUpper (pyStrip symbol)
                          exchange := exchange
                          source := "okx"
                          venue := "okx"
                          instId := instId
                          price := price
                          priceQuote := "USDT"
                          priceChange24h := priceChange
                          volume24h := volume
                          volume24hUnit := "quote_notional"
                          fundingRate := fundingRate
                          openInterest := oiPair.1
                          openInterestUnit := oiPair.2
                          oiChange := none
                          longShortRatio := none
                          volatilityRegime := volRegimeFromChange priceChange
                          liquidityCondition :=
                            liquidityConditionFromQuoteVol volume
                          timestampExchange := tsExchange
                          timestamp := nowIso }

/-- The default of the `CACHE_TTL_SECONDS` configuration (seconds). -/
def CACHE_TTL_SECONDS : ℤ := 8

/-- Model of the `market_snapshot` request handler. A failed
normalization becomes a 400 before anything else; then the cache is
consulted (its lazy eviction included); a hit is returned as-is (a
snapshot dict is always truthy); a miss runs `fetchAndBuild`, and only a
successful build is written back to the cache. The handler returns the
response next to the final cache state (the Python global). -/
def marketSnapshot (symbol exchange : String) (timeframe : Option String)
    (tickResp : OkxResp TickerItem) (frResp : OkxResp FundingItem)
    (oiResp : OkxResp OiItem) (cache : Cache) (now ttl : ℤ)
    (nowIso : String) : Except SnapErr Snapshot × Cache :=
  match normalizeSymbolToOkxInst symbol with
  | .error e => (.error (.httpError 400 e), cache)
  | .ok instId =>
    let cacheKey := exchange ++ ":" ++ instId ++ ":" ++ timeframe.getD ""
    match cacheGet cache cacheKey now ttl with
    | (some cached, cache1) => (.ok cached, cache1)
    | (none, cache1) =>
      match fetchAndBuild symbol exchange instId tickResp frResp oiResp nowIso with
      | .error e => (.error e, cache1)
      | .ok result => (.ok result, cacheSet cache1 cacheKey now result)

/-- A ticker item with every field absent (legal: the reconciler must not
assume presence). -/
def t0Empty : TickerItem := ⟨none, none, none, none, none, none⟩

/-- A successful ticker response with one all-absent item. -/
def tickOkEmptyItem : OkxResp TickerItem := ⟨200, "", some "0", [t0Empty]⟩

/-- A successful ticker response whose item carries an unparsable `last`. -/
def tickAbc : OkxResp TickerItem :=
  ⟨200, "", some "0", [⟨some "abc", none, none, none, none, none⟩]⟩

/-- A ticker call failing at the transport layer. -/
def tickBad : OkxResp TickerItem := ⟨500, "boom", some "0", []⟩

/-- A funding-rate call failing at the transport layer. -/
def frBad : OkxResp FundingItem := ⟨500, "fr down", some "0", []⟩

/-- A successful funding-rate response with no data. -/
def frOkEmpty : OkxResp FundingItem := ⟨200, "", some "0", []⟩

/-- A successful open-interest response with no data. -/
def oiOkEmpty : OkxResp OiItem := ⟨200, "", some "0", []⟩

/-- A concrete snapshot used to populate caches in concrete runs. -/
def sn0 : Snapshot :=
  { symbol := "BTCUSDT", exchange := "okx", source := "okx", venue := "okx"
    instId := "BTC-USDT-SWAP", price := none, priceQuote := "USDT"
    priceChange24h := none, volume24h := none
    volume24hUnit := "quote_notional", fundingRate := none
    openInterest := none, openInterestUnit := none, oiChange := none
    longShortRatio := none, volatilityRegime := none
    liquidityCondition := none, timestampExchange := none, timestamp := "T0" }

example : pyFloatParts "65000" = some ⟨false, 65000, 0, 0, false, 0⟩ := by decide
example :
    (marketSnapshot "BTCUSDT" "okx" none tickOkEmptyItem frBad oiOkEmpty
      emptyCache 0 8 "T").1
      = .error (.httpError 502 "OKX upstream error: fr down") := rfl
example :
    (marketSnapshot "BTCUSDT" "okx" none tickAbc frOkEmpty oiOkEmpty
      emptyCache 0 8 "T").1 = .error (.valueError "abc") := rfl
example : pyFloat "65000" = some 65000 := by
  rw [pyFloat, show pyFloatParts "65000" = some ⟨false, 65000, 0, 0, false, 0⟩ from by decide]
  norm_num [partsVal]
example : pyFloat "abc" = none := by decide
example : pyFloat "0.5" = some (1 / 2) := by
  rw [pyFloat, show pyFloatParts "0.5" = some ⟨false, 0, 5, 1, false, 0⟩ from by decide]
  norm_num [partsVal]
example : pyFloat "" = none := by decide
example : pyFloat "-1e3" = some (-1000) := by
  rw [pyFloat, show pyFloatParts "-1e3" = some ⟨true, 1, 0, 0, false, 3⟩ from by decide]
  norm_num [partsVal]
example : normalizeSymbolToOkxInst "BTCUSDT" = .ok "BTC-USDT-SWAP" := rfl
example : normalizeSymbolToOkxInst " btcusdt " = .ok "BTC-USDT-SWAP" := rfl
example : normalizeSymbolToOkxInst "USDT" = .ok "-USDT-SWAP" := rfl
example : normalizeSymbolToOkxInst "BTC-USDT" = .error "Invalid symbol format." := rfl
example : normalizeSymbolToOkxInst "BTC" =
    .error "Only *USDT symbols supported (e.g., BTCUSDT)." := rfl
example : msToIso (some "1700000000000") = some "2023-11-14T22:13:20Z" := rfl

/-- C4: for every reading, `price_change_24h` equals
`(last - open_24h) / open_24h * 100` exactly when both `last` and
`open_24h` are present and `open_24h` is non-zero; in every other case
(either operand absent, or `open_24h = 0`) it is null. -/
theorem c4_price_change_24h :
    (∀ pv ov : ℚ, ov ≠ 0 →
        priceChangeOf (some pv) (some ov) = some ((pv - ov) / ov * 100))
    ∧ (∀ o : Option ℚ, priceChangeOf none o = none)
    ∧ (∀ p : Option ℚ, priceChangeOf p none = none)
    ∧ (∀ pv : ℚ, priceChangeOf (some pv) (some 0) = none) := by
  refine ⟨?_, ?_, ?_, ?_⟩
  · intro pv ov h
    simp [priceChangeOf, h]
  · intro o
    cases o <;> simp [priceChangeOf]
  · intro p
    cases p <;> simp [priceChangeOf]
  · intro pv
    simp [priceChangeOf]

/-- Witness for C4 at last 105, open 100. -/
theorem c4_price_change_24h_witness :
    priceChangeOf (some 105) (some 100) = some ((105 - 100) / 100 * 100) :=
  c4_price_change_24h.1 105 100 (by decide)

/-- C5: `volatility_regime` is derived from the absolute percent change
with cutoffs 2 and 5, where the boundary 5.0 resolves to "high"; a null
change yields a null regime and the regime is never non-null for a null
input. With last 105 and open 100 the change is exactly 5 and the regime
is "high". -/
theorem c5_volatility_regime :
    volRegimeFromChange none = none
    ∧ (∀ v : ℚ, abs v < 2 → volRegimeFromChange (some v) = some "low")
    ∧ (∀ v : ℚ, 2 ≤ abs v → abs v < 5 →
        volRegimeFromChange (some v) = some "medium")
    ∧ (∀ v : ℚ, 5 ≤ abs v → volRegimeFromChange (some v) = some "high")
    ∧ priceChangeOf (some 105) (some 100) = some 5
    ∧ volRegimeFromChange (some 5) = some "high"
    ∧ (∀ v : Option ℚ, volRegimeFromChange v ≠ none → v ≠ none) := by
  refine ⟨rfl, ?_, ?_, ?_, ?_, ?_, ?_⟩
  · intro v h
    simp [volRegimeFromChange, h]
  · intro v h2 h5
    simp [volRegimeFromChange, h5, not_lt.mpr h2]
  · intro v h5
    simp [volRegimeFromChange, not_lt.mpr h5,
      not_lt.mpr (le_trans (by norm_num : (2 : ℚ) ≤ 5) h5)]
  · simp [priceChangeOf]
    norm_num
  · norm_num [volRegimeFromChange, abs_of_nonneg]
  · intro v h
    cases v with
    | none => simp [volRegimeFromChange] at h
    | some _ => simp

/-- Witness for C5 at percent change 6 (regime "high") and the null
input. -/
theorem c5_volatility_regime_witness :
    volRegimeFromChange (some 6) = some "high"
    ∧ volRegimeFromChange none = none :=
  ⟨c5_volatility_regime.2.2.2.1 6 (by rw [abs_of_nonneg] <;> norm_num),
   c5_volatility_regime.1⟩

/-- C6: `liquidity_condition` is derived from `volume_24h` with cutoffs
50,000,000 and 300,000,000 (non-positive volume is "thin", the lower
boundary itself is "normal", the upper boundary is "crowded"); a null
volume yields a null condition and the condition is never non-null for a
null input. -/
theorem c6_liquidity_condition :
    liquidityConditionFromQuoteVol none = none
    ∧ (∀ v : ℚ, v ≤ 0 → liquidityConditionFromQuoteVol (some v) = some "thin")
    ∧ (∀ v : ℚ, 0 < v → v < 50000000 →
        liquidityConditionFromQuoteVol (some v) = some "thin")
    ∧ (∀ v : ℚ, 50000000 ≤ v → v < 300000000 →
        liquidityConditionFromQuoteVol (some v) = some "normal")
    ∧ (∀ v : ℚ, 300000000 ≤ v →
        liquidityConditionFromQuoteVol (some v) = some "crowded")
    ∧ liquidityConditionFromQuoteVol (some 50000000) = some "normal"
    ∧ (∀ v : Option ℚ, liquidityConditionFromQuoteVol v ≠ none → v ≠ none) := by
  refine ⟨rfl, ?_, ?_, ?_, ?_, ?_, ?_⟩
  · intro v h
    simp [liquidityConditionFromQuoteVol, h]
  · intro v h0 h5
    simp [liquidityConditionFromQuoteVol, not_le.mpr h0, h5]
  · intro v h5 h3
    have h0 : ¬ v ≤ 0 := not_le.mpr (lt_of_lt_of_le (by norm_num) h5)
    simp [liquidityConditionFromQuoteVol, h0, not_lt.mpr h5, h3]
  · intro v h3
    have h5 : (50000000 : ℚ) ≤ v := le_trans (by norm_num) h3
    have h0 : ¬ v ≤ 0 := not_le.mpr (lt_of_lt_of_le (by norm_num) h5)
    simp [liquidityConditionFromQuoteVol, h0, not_lt.mpr h5, not_lt.mpr h3]
  · norm_num [liquidityConditionFromQuoteVol]
  · intro v h
    cases v with
    | none => simp [liquidityConditionFromQuoteVol] at h
    | some _ => simp

/-- Witness for C6 at the 50,000,000 boundary and at zero volume. -/
theorem c6_liquidity_condition_witness :
    liquidityConditionFromQuoteVol (some 50000000) = some "normal"
    ∧ liquidityConditionFromQuoteVol (some 0) = some "thin" :=
  ⟨c6_liquidity_condition.2.2.2.2.2.1,
   c6_liquidity_condition.2.1 0 (by norm_num)⟩

/-- C7: a `put` followed by a `get` within the TTL (age not exceeding it)
returns the stored snapshot and leaves the cache as the put left it; once
the age exceeds the TTL the `get` misses, evicts the stale entry as a
side effect, and every subsequent `get` for that key also misses. -/
theorem c7_cache_ttl :
    (∀ (c : Cache) (k : String) (v : Snapshot) (t tg ttl : ℤ),
        tg - t ≤ ttl →
        cacheGet (cacheSet c k t v) k tg ttl = (some v, cacheSet c k t v))
    ∧ (∀ (c : Cache) (k : String) (v : Snapshot) (t tg ttl : ℤ),
        ttl < tg - t →
        (cacheGet (cacheSet c k t v) k tg ttl).1 = none
        ∧ (cacheGet (cacheSet c k t v) k tg ttl).2 k = none
        ∧ ∀ tg2 : ℤ,
            (cacheGet ((cacheGet (cacheSet c k t v) k tg ttl).2) k tg2 ttl).1
              = none) := by
  constructor
  · intro c k v t tg ttl h
    simp [cacheGet, cacheSet, not_lt.mpr h]
  · intro c k v t tg ttl h
    refine ⟨?_, ?_, ?_⟩
    · simp [cacheGet, cacheSet, h]
    · simp [cacheGet, cacheSet, h]
    · intro tg2
      simp [cacheGet, cacheSet, h]

/-- Witness for C7: a hit at age exactly the default TTL of 8 seconds,
then a miss with eviction at age 9 and a subsequent miss at age 20. -/
theorem c7_cache_ttl_witness :
    cacheGet (cacheSet emptyCache "okx:BTC-USDT-SWAP:" 0 sn0)
        "okx:BTC-USDT-SWAP:" 8 CACHE_TTL_SECONDS
      = (some sn0, cacheSet emptyCache "okx:BTC-USDT-SWAP:" 0 sn0)
    ∧ (cacheGet (cacheSet emptyCache "okx:BTC-USDT-SWAP:" 0 sn0)
        "okx:BTC-USDT-SWAP:" 9 CACHE_TTL_SECONDS).1 = none
    ∧ (cacheGet (cacheSet emptyCache "okx:BTC-USDT-SWAP:" 0 sn0)
        "okx:BTC-USDT-SWAP:" 9 CACHE_TTL_SECONDS).2 "okx:BTC-USDT-SWAP:" = none
    ∧ (cacheGet ((cacheGet (cacheSet emptyCache "okx:BTC-USDT-SWAP:" 0 sn0)
        "okx:BTC-USDT-SWAP:" 9 CACHE_TTL_SECONDS).2) "okx:BTC-USDT-SWAP:" 20
          CACHE_TTL_SECONDS).1 = none :=
  ⟨c7_cache_ttl.1 emptyCache "okx:BTC-USDT-SWAP:" sn0 0 8 CACHE_TTL_SECONDS
      (by decide),
   (c7_cache_ttl.2 emptyCache "okx:BTC-USDT-SWAP:" sn0 0 9 CACHE_TTL_SECONDS
      (by decide)).1,
   (c7_cache_ttl.2 emptyCache "okx:BTC-USDT-SWAP:" sn0 0 9 CACHE_TTL_SECONDS
      (by decide)).2.1,
   (c7_cache_ttl.2 emptyCache "okx:BTC-USDT-SWAP:" sn0 0 9 CACHE_TTL_SECONDS
      (by decide)).2.2 20⟩

/-- Helper: an empty string has no suffix "USDT". -/
theorem pyEndsWith_usdt_of_empty (s : String)
    (h : s.toList.isEmpty = true) : pyEndsWith s "USDT" = false := by
  rw [pyEndsWith, List.isEmpty_iff.mp h]
  decide

/-- Helper: `pyIsAlnum` is false exactly on the empty string or in the
presence of a non-alphanumeric character. -/
theorem pyIsAlnum_eq_false_iff (s : String) :
    pyIsAlnum s = false ↔
      s.toList.isEmpty = true ∨ ∃ c ∈ s.toList, ¬ c.isAlphanum = true := by
  rw [pyIsAlnum]
  cases h : s.toList.isEmpty with
  | true => simp [h]
  | false =>
    simp only [h, Bool.not_false, Bool.true_and, false_or]
    rw [← Bool.not_eq_true, List.all_eq_true]
    push_neg
    simp

/-- C8: normalization fails with `InvalidSymbol` exactly when, after
trimming and upper-casing, the symbol has a non-alphanumeric character or
does not end in "USDT"; every accepted symbol maps to the instrument id
obtained by stripping the trailing "USDT" and rejoining as
base-USDT-SWAP ("BTCUSDT" gives "BTC-USDT-SWAP"); and a normalization
failure is surfaced by the handler as a 400 with the cache untouched, for
every possible upstream response (hence before any network call). -/
theorem c8_normalize :
    (∀ sym : String,
        (∃ e, normalizeSymbolToOkxInst sym = .error e) ↔
          ((∃ c ∈ (pyUpper (pyStrip sym)).toList, ¬ c.isAlphanum = true)
            ∨ pyEndsWith (pyUpper (pyStrip sym)) "USDT" = false))
    ∧ (∀ sym inst, normalizeSymbolToOkxInst sym = .ok inst →
        inst = pySliceToMinus4 (pyUpper (pyStrip sym)) ++ "-USDT-SWAP")
    ∧ normalizeSymbolToOkxInst "BTCUSDT" = .ok "BTC-USDT-SWAP"
    ∧ (∀ (exchange : String) (timeframe : Option String)
          (tickResp : OkxResp TickerItem) (frResp : OkxResp FundingItem)
          (oiResp : OkxResp OiItem) (cache : Cache) (now ttl : ℤ)
          (nowIso sym e : String),
        normalizeSymbolToOkxInst sym = .error e →
        marketSnapshot sym exchange timeframe tickResp frResp oiResp cache
            now ttl nowIso
          = (.error (.httpError 400 e), cache)) := by
  refine ⟨?_, ?_, rfl, ?_⟩
  · intro sym
    constructor
    · rintro ⟨e, he⟩
      rw [normalizeSymbolToOkxInst] at he
      by_cases h1 : pyIsAlnum (pyUpper (pyStrip sym)) = false
      · rcases (pyIsAlnum_eq_false_iff _).mp h1 with hemp | hbad
        · exact Or.inr (pyEndsWith_usdt_of_empty _ hemp)
        · exact Or.inl hbad
      · by_cases h2 : pyEndsWith (pyUpper (pyStrip sym)) "USDT" = false
        · exact Or.inr h2
        · simp [h1, h2] at he
    · intro h
      rw [normalizeSymbolToOkxInst]
      by_cases h1 : pyIsAlnum (pyUpper (pyStrip sym)) = false
      · exact ⟨"Invalid symbol format.", by simp [h1]⟩
      · rcases h with hbad | h2
        · exact absurd ((pyIsAlnum_eq_false_iff _).mpr (Or.inr hbad)) h1
        · exact ⟨"Only *USDT symbols supported (e.g., BTCUSDT).",
            by simp [h1, h2]⟩
  · intro sym inst h
    rw [normalizeSymbolToOkxInst] at h
    by_cases h1 : pyIsAlnum (pyUpper (pyStrip sym)) = false
    · simp [h1] at h
    · by_cases h2 : pyEndsWith (pyUpper (pyStrip sym)) "USDT" = false
      · simp [h1, h2] at h
      · simp [h1, h2] at h
        exact h.symm
  · intro exchange timeframe tickResp frResp oiResp cache now ttl nowIso sym e h
    rw [marketSnapshot, h]

/-- Witness for C8: the accepted symbol "BTCUSDT" maps to
"BTC-USDT-SWAP" and the rejected symbol "BTC" is surfaced as a 400 with
the cache untouched. -/
theorem c8_normalize_witness :
    "BTC-USDT-SWAP" = pySliceToMinus4 (pyUpper (pyStrip "BTCUSDT")) ++ "-USDT-SWAP"
    ∧ marketSnapshot "BTC" "okx" none tickBad frBad oiOkEmpty emptyCache 0 8 "T"
        = (.error (.httpError 400 "Only *USDT symbols supported (e.g., BTCUSDT)."),
           emptyCache) :=
  ⟨c8_normalize.2.1 "BTCUSDT" "BTC-USDT-SWAP" rfl,
   c8_normalize.2.2.2 "okx" none tickBad frBad oiOkEmpty emptyCache 0 8 "T"
     "BTC" "Only *USDT symbols supported (e.g., BTCUSDT)." rfl⟩

/-- C10: every symbol whose trimmed, upper-cased form is exactly "USDT"
is accepted (alphanumeric and ending in "USDT") and maps to the
degenerate instrument id "-USDT-SWAP" with an empty base, instead of
failing with `InvalidSymbol`. -/
theorem c10_bare_usdt :
    ∀ sym : String, pyUpper (pyStrip sym) = "USDT" →
      normalizeSymbolToOkxInst sym = .ok "-USDT-SWAP" := by
  intro sym h
  rw [normalizeSymbolToOkxInst, h]
  rfl

/-- Witness for C10 at the input " usdt ". -/
theorem c10_bare_usdt_witness :
    normalizeSymbolToOkxInst " usdt " = .ok "-USDT-SWAP" :=
  c10_bare_usdt " usdt " (by decide)

/-- A successful ticker response with an empty `data` array. -/
def tickOkNoData : OkxResp TickerItem := ⟨200, "", some "0", []⟩

/-- The snapshot produced by a run over `tickOkEmptyItem`, `frOkEmpty`
and `oiOkEmpty` at generation time "T": every optional field is null. -/
def snEmptyRun : Snapshot :=
  { symbol := "BTCUSDT", exchange := "okx", source := "okx", venue := "okx"
    instId := "BTC-USDT-SWAP", price := none, priceQuote := "USDT"
    priceChange24h := none, volume24h := none
    volume24hUnit := "quote_notional", fundingRate := none
    openInterest := none, openInterestUnit := none, oiChange := none
    longShortRatio := none, volatilityRegime := none
    liquidityCondition := none, timestampExchange := none, timestamp := "T" }

/-- Counterexample to C1 as stated: the ticker call succeeds with
non-empty data, yet a transport failure of the funding-rate call makes
the whole request fail instead of returning a snapshot with a null
funding rate. -/
theorem c1_counterexample :
    tickOkEmptyItem.status = 200 ∧ tickOkEmptyItem.data ≠ []
    ∧ (marketSnapshot "BTCUSDT" "okx" none tickOkEmptyItem frBad oiOkEmpty
        emptyCache 0 8 "T").1
      = .error (.httpError 502 "OKX upstream error: fr down") :=
  ⟨rfl, by decide, rfl⟩

/-- C1 amended: a transport or envelope failure of the funding-rate call
or of the open-interest call aborts the whole request with that error
(even when the ticker call succeeded with non-empty, parsable data); only
data absent from a successful funding/open-interest response is recorded
as a null field in a still-successful snapshot. -/
theorem c1_amended :
    (∀ (symbol exchange instId nowIso : String) (tickResp : OkxResp TickerItem)
        (frResp : OkxResp FundingItem) (oiResp : OkxResp OiItem)
        (t0 : TickerItem) (rest : List TickerItem) (p o v : Option ℚ)
        (e : SnapErr),
      okxGet tickResp = .ok tickResp → tickResp.data = t0 :: rest →
      parsePrice t0 = .ok p → parseOpen24h t0 = .ok o →
      parseVolume t0 = .ok v →
      okxGet frResp = .error e →
      fetchAndBuild symbol exchange instId tickResp frResp oiResp nowIso
        = .error e)
    ∧ (∀ (symbol exchange instId nowIso : String)
        (tickResp : OkxResp TickerItem) (frResp : OkxResp FundingItem)
        (oiResp : OkxResp OiItem) (t0 : TickerItem) (rest : List TickerItem)
        (p o v f : Option ℚ) (e : SnapErr),
      okxGet tickResp = .ok tickResp → tickResp.data = t0 :: rest →
      parsePrice t0 = .ok p → parseOpen24h t0 = .ok o →
      parseVolume t0 = .ok v →
      okxGet frResp = .ok frResp → parseFunding frResp.data = .ok f →
      okxGet oiResp = .error e →
      fetchAndBuild symbol exchange instId tickResp frResp oiResp nowIso
        = .error e)
    ∧ (∀ (symbol exchange instId nowIso : String)
        (tickResp : OkxResp TickerItem) (frResp : OkxResp FundingItem)
        (oiResp : OkxResp OiItem) (t0 : TickerItem) (rest : List TickerItem)
        (p o v : Option ℚ),
      okxGet tickResp = .ok tickResp → tickResp.data = t0 :: rest →
      parsePrice t0 = .ok p → parseOpen24h t0 = .ok o →
      parseVolume t0 = .ok v →
      okxGet frResp = .ok frResp → frResp.data = [] →
      okxGet oiResp = .ok oiResp → oiResp.data = [] →
      (fetchAndBuild symbol exchange instId tickResp frResp oiResp nowIso).isOk
          = true
      ∧ ∀ snap,
          fetchAndBuild symbol exchange instId tickResp frResp oiResp nowIso
            = .ok snap →
          snap.fundingRate = none ∧ snap.openInterest = none
            ∧ snap.openInterestUnit = none) := by
  refine ⟨?_, ?_, ?_⟩
  · intro symbol exchange instId nowIso tickResp frResp oiResp t0 rest p o v e
      htick hdata hp ho hv hfr
    simp only [fetchAndBuild, htick, hdata, hp, ho, hv, hfr]
  · intro symbol exchange instId nowIso tickResp frResp oiResp t0 rest p o v f e
      htick hdata hp ho hv hfr hfund hoi
    simp only [fetchAndBuild, htick, hdata, hp, ho, hv, hfr, hfund, hoi]
  · intro symbol exchange instId nowIso tickResp frResp oiResp t0 rest p o v
      htick hdata hp ho hv hfr hfrd hoi hoid
    simp only [fetchAndBuild, htick, hdata, hp, ho, hv, hfr, hfrd, hoi, hoid,
      parseFunding, parseOi]
    exact ⟨rfl, fun snap hsnap => by
      cases hsnap
      exact ⟨rfl, rfl, rfl⟩⟩

/-- Witness for C1 amended: the funding-transport-failure run aborts with
the 502, and the all-successful run with empty funding/open-interest data
yields the all-null snapshot. -/
theorem c1_amended_witness :
    fetchAndBuild "BTCUSDT" "okx" "BTC-USDT-SWAP" tickOkEmptyItem frBad
        oiOkEmpty "T"
      = .error (.httpError 502 "OKX upstream error: fr down")
    ∧ (fetchAndBuild "BTCUSDT" "okx" "BTC-USDT-SWAP" tickOkEmptyItem frOkEmpty
        oiOkEmpty "T").isOk = true
    ∧ snEmptyRun.fundingRate = none ∧ snEmptyRun.openInterest = none
    ∧ snEmptyRun.openInterestUnit = none :=
  ⟨c1_amended.1 "BTCUSDT" "okx" "BTC-USDT-SWAP" "T" tickOkEmptyItem frBad
      oiOkEmpty t0Empty [] none none none _ rfl rfl rfl rfl rfl rfl,
   (c1_amended.2.2 "BTCUSDT" "okx" "BTC-USDT-SWAP" "T" tickOkEmptyItem
      frOkEmpty oiOkEmpty t0Empty [] none none none rfl rfl rfl rfl rfl rfl
      rfl rfl rfl).1,
   (c1_amended.2.2 "BTCUSDT" "okx" "BTC-USDT-SWAP" "T" tickOkEmptyItem
      frOkEmpty oiOkEmpty t0Empty [] none none none rfl rfl rfl rfl rfl rfl
      rfl rfl rfl).2 snEmptyRun rfl⟩

/-- Counterexample to C2 as stated: the ticker data set is non-empty, but
its `last` field holds the unparsable string "abc"; instead of a null
reading, the parse aborts the request with an uncaught error. -/
theorem c2_counterexample :
    tickAbc.data ≠ []
    ∧ (marketSnapshot "BTCUSDT" "okx" none tickAbc frOkEmpty oiOkEmpty
        emptyCache 0 8 "T").1 = .error (.valueError "abc") :=
  ⟨by decide, rfl⟩

/-- C2 amended: a missing value (or, for the truthiness-guarded fields, a
present empty string) becomes a null reading without aborting; a present
value that does not parse as a number aborts the request with an uncaught
error; an empty ticker data set is fatal with the 502 "No ticker data"
failure. -/
theorem c2_amended :
    (∀ t0 : TickerItem, t0.last = none → parsePrice t0 = .ok none)
    ∧ (∀ (t0 : TickerItem) (s : String), t0.last = some s →
        pyFloat s = none → parsePrice t0 = .error (.valueError s))
    ∧ (∀ t0 : TickerItem, t0.open24h = none ∨ t0.open24h = some "" →
        parseOpen24h t0 = .ok none)
    ∧ (∀ (t0 : TickerItem) (s : String), t0.open24h = some s → s ≠ "" →
        pyFloat s = none → parseOpen24h t0 = .error (.valueError s))
    ∧ (∀ t0 : TickerItem, volQuoteStr t0 = none ∨ volQuoteStr t0 = some "" →
        parseVolume t0 = .ok none)
    ∧ (∀ frd : List FundingItem,
        frd = [] ∨ (∃ f0 rest, frd = f0 :: rest ∧ f0.fundingRate = none) →
        parseFunding frd = .ok none)
    ∧ (∀ (symbol exchange instId nowIso : String)
        (tickResp : OkxResp TickerItem) (frResp : OkxResp FundingItem)
        (oiResp : OkxResp OiItem),
        okxGet tickResp = .ok tickResp → tickResp.data = [] →
        fetchAndBuild symbol exchange instId tickResp frResp oiResp nowIso
          = .error (.httpError 502 ("No ticker data for " ++ instId))) := by
  refine ⟨?_, ?_, ?_, ?_, ?_, ?_, ?_⟩
  · intro t0 h
    simp only [parsePrice, h]
  · intro t0 s h hf
    simp only [parsePrice, h, pyFloatE, hf]
    rfl
  · intro t0 h
    rcases h with h | h <;> simp [parseOpen24h, h]
  · intro t0 s h hs hf
    simp only [parseOpen24h, h, pyFloatE, hf, if_neg hs]
    rfl
  · intro t0 h
    rcases h with h | h <;> simp [parseVolume, h]
  · intro frd h
    rcases h with h | ⟨f0, rest, hfrd, hnone⟩
    · simp [parseFunding, h]
    · simp [parseFunding, hfrd, hnone]
  · intro symbol exchange instId nowIso tickResp frResp oiResp htick hdata
    simp only [fetchAndBuild, htick, hdata]

/-- Witness for C2 amended: null readings for absent `last`, empty-string
`open24h` and absent volume fields; the abort on the unparsable "abc";
null funding on empty data; and the fatal empty ticker data set. -/
theorem c2_amended_witness :
    parsePrice t0Empty = .ok none
    ∧ parsePrice ⟨some "abc", none, none, none, none, none⟩
        = .error (.valueError "abc")
    ∧ parseOpen24h ⟨none, some "", none, none, none, none⟩ = .ok none
    ∧ parseVolume t0Empty = .ok none
    ∧ parseFunding [] = .ok none
    ∧ fetchAndBuild "BTCUSDT" "okx" "BTC-USDT-SWAP" tickOkNoData frOkEmpty
        oiOkEmpty "T"
      = .error (.httpError 502 ("No ticker data for " ++ "BTC-USDT-SWAP")) :=
  ⟨c2_amended.1 t0Empty rfl,
   c2_amended.2.1 ⟨some "abc", none, none, none, none, none⟩ "abc" rfl
     (by decide),
   c2_amended.2.2.1 ⟨none, some "", none, none, none, none⟩ (Or.inr rfl),
   c2_amended.2.2.2.2.1 t0Empty (Or.inl rfl),
   c2_amended.2.2.2.2.2.1 [] (Or.inl rfl),
   c2_amended.2.2.2.2.2.2 "BTCUSDT" "okx" "BTC-USDT-SWAP" "T" tickOkNoData
     frOkEmpty oiOkEmpty rfl rfl⟩

/-- A cache holding a snapshot for the key of the C3 run, stored at
time 0. -/
def cacheC3 : Cache := cacheSet emptyCache "okx:BTC-USDT-SWAP:" 0 sn0

/-- Counterexample to C3 as stated: a request that fails after
normalization (ticker transport failure) does change the cache state —
the lookup's lazy expiry evicts the stale entry for the key, so the final
cache differs from the initial one even though nothing was written. -/
theorem c3_counterexample :
    (marketSnapshot "BTCUSDT" "okx" none tickBad frOkEmpty oiOkEmpty cacheC3
        100 8 "T").1 = .error (.httpError 502 "OKX upstream error: boom")
    ∧ cacheC3 "okx:BTC-USDT-SWAP:" = some ⟨0, sn0⟩
    ∧ (marketSnapshot "BTCUSDT" "okx" none tickBad frOkEmpty oiOkEmpty cacheC3
        100 8 "T").2 "okx:BTC-USDT-SWAP:" = none :=
  ⟨rfl, rfl, rfl⟩

/-- C3 amended: on every request that fails after normalization, the
final cache is exactly the cache left by the lookup's lazy expiry — no
cache entry is ever written on a failure path (a write happens only after
a successful reconciliation), and the lookup itself either leaves the
key's entry unchanged or merely evicts an expired one. -/
theorem c3_amended :
    (∀ (symbol exchange : String) (timeframe : Option String)
        (tickResp : OkxResp TickerItem) (frResp : OkxResp FundingItem)
        (oiResp : OkxResp OiItem) (cache : Cache) (now ttl : ℤ)
        (nowIso instId : String) (e : SnapErr),
      normalizeSymbolToOkxInst symbol = .ok instId →
      (marketSnapshot symbol exchange timeframe tickResp frResp oiResp cache
          now ttl nowIso).1 = .error e →
      (marketSnapshot symbol exchange timeframe tickResp frResp oiResp cache
          now ttl nowIso).2
        = (cacheGet cache
            (exchange ++ ":" ++ instId ++ ":" ++ timeframe.getD "")
            now ttl).2)
    ∧ (∀ (cache : Cache) (key : String) (now ttl : ℤ),
        (cacheGet cache key now ttl).2 key = cache key
        ∨ (cacheGet cache key now ttl).2 key = none) := by
  constructor
  · intro symbol exchange timeframe tickResp frResp oiResp cache now ttl
      nowIso instId e hn herr
    simp only [marketSnapshot, hn] at herr ⊢
    rcases hcg : cacheGet cache
        (exchange ++ ":" ++ instId ++ ":" ++ timeframe.getD "") now ttl
      with ⟨hit, cache1⟩
    simp only [hcg] at herr ⊢
    cases hit with
    | some cached => simp at herr
    | none =>
      cases hfb : fetchAndBuild symbol exchange instId tickResp frResp oiResp
          nowIso with
      | error e2 => simp [hfb]
      | ok snap =>
        rw [hfb] at herr
        simp at herr
  · intro cache key now ttl
    rw [cacheGet]
    cases hc : cache key with
    | none => exact Or.inl hc
    | some item =>
      by_cases hstale : ttl < now - item.ts
      · exact Or.inr (by simp [hstale])
      · exact Or.inl (by simp [hstale, hc])

/-- Witness for C3 amended at the concrete failing run over the stale
cache: the final cache equals the post-lookup cache, and the lookup at
that key either preserved or evicted the entry. -/
theorem c3_amended_witness :
    (marketSnapshot "BTCUSDT" "okx" none tickBad frOkEmpty oiOkEmpty cacheC3
        100 8 "T").2
      = (cacheGet cacheC3
          ("okx" ++ ":" ++ "BTC-USDT-SWAP" ++ ":" ++ (none : Option String).getD "")
          100 8).2
    ∧ ((cacheGet cacheC3 "okx:BTC-USDT-SWAP:" 100 8).2 "okx:BTC-USDT-SWAP:"
          = cacheC3 "okx:BTC-USDT-SWAP:"
        ∨ (cacheGet cacheC3 "okx:BTC-USDT-SWAP:" 100 8).2 "okx:BTC-USDT-SWAP:"
          = none) :=
  ⟨c3_amended.1 "BTCUSDT" "okx" none tickBad frOkEmpty oiOkEmpty cacheC3 100 8
      "T" "BTC-USDT-SWAP" (.httpError 502 "OKX upstream error: boom") rfl rfl,
   c3_amended.2 cacheC3 "okx:BTC-USDT-SWAP:" 100 8⟩

/-- The claim's reading of the quote-volume precedence, stated from the
spec's words for comparison with `volQuoteStr`: the first PRESENT field
wins (`volCcyQuote`, then `volCcy24h`, then `volCcy`), a lower-precedence
field being consulted only when every higher-precedence field is absent. -/
def specVolQuoteStr (t0 : TickerItem) : Option String :=
  match t0.volCcyQuote with
  | some s => some s
  | none =>
    match t0.volCcy24h with
    | some s => some s
    | none => t0.volCcy

/-- A ticker item whose `volCcyQuote` is present but empty while
`volCcy24h` is present and non-empty. -/
def t0c9 : TickerItem := ⟨none, none, some "", some "123", none, none⟩

/-- Counterexample to C9 as stated: with `volCcyQuote` present (but
empty), the code still consults the lower-precedence `volCcy24h` —
Python `or` skips falsy values, not only absent ones — so the extracted
source string differs from the claim's first-present-wins rule. -/
theorem c9_counterexample :
    t0c9.volCcyQuote = some ""
    ∧ volQuoteStr t0c9 = some "123"
    ∧ specVolQuoteStr t0c9 = some ""
    ∧ volQuoteStr t0c9 ≠ specVolQuoteStr t0c9 :=
  ⟨rfl, rfl, rfl, by decide⟩

/-- C9 amended: for quote volume the first present AND non-empty value
wins (present-but-empty strings are skipped like absent ones, with
`volCcy` returned as-is as the last resort); for open interest the claim
holds as stated: `oiUsd` (unit "USD") if present, else `oi` (unit
"contracts"), else null value and unit. -/
theorem c9_amended :
    (∀ (t0 : TickerItem) (s : String), t0.volCcyQuote = some s → s ≠ "" →
        volQuoteStr t0 = some s)
    ∧ (∀ (t0 : TickerItem) (s : String),
        t0.volCcyQuote = none ∨ t0.volCcyQuote = some "" →
        t0.volCcy24h = some s → s ≠ "" → volQuoteStr t0 = some s)
    ∧ (∀ t0 : TickerItem,
        (t0.volCcyQuote = none ∨ t0.volCcyQuote = some "") →
        (t0.volCcy24h = none ∨ t0.volCcy24h = some "") →
        volQuoteStr t0 = t0.volCcy)
    ∧ (∀ (o0 : OiItem) (rest : List OiItem) (s : String) (q : ℚ),
        o0.oiUsd = some s → pyFloat s = some q →
        parseOi (o0 :: rest) = .ok (some q, some "USD"))
    ∧ (∀ (o0 : OiItem) (rest : List OiItem) (s : String) (q : ℚ),
        o0.oiUsd = none → o0.oi = some s → pyFloat s = some q →
        parseOi (o0 :: rest) = .ok (some q, some "contracts"))
    ∧ (∀ (o0 : OiItem) (rest : List OiItem), o0.oiUsd = none → o0.oi = none →
        parseOi (o0 :: rest) = .ok (none, none))
    ∧ parseOi [] = .ok (none, none) := by
  refine ⟨?_, ?_, ?_, ?_, ?_, ?_, rfl⟩
  · intro t0 s h hs
    simp [volQuoteStr, pyOr, h, hs]
  · intro t0 s h h24 hs
    rcases h with h | h <;> simp [volQuoteStr, pyOr, h, h24, hs]
  · intro t0 h h24
    rcases h with h | h <;> rcases h24 with h24 | h24 <;>
      simp [volQuoteStr, pyOr, h, h24]
  · intro o0 rest s q h hf
    simp only [parseOi, h, pyFloatE, hf]
    rfl
  · intro o0 rest s q h hoi hf
    simp only [parseOi, h, hoi, pyFloatE, hf]
    rfl
  · intro o0 rest h hoi
    simp only [parseOi, h, hoi]

/-- Witness for C9 amended: the non-empty `volCcyQuote` "5" wins; with a
falsy `volCcyQuote` and absent `volCcy24h` the last resort `volCcy` is
returned; `oiUsd` "7" is taken with unit "USD"; `oi` "9" is taken with
unit "contracts" when `oiUsd` is absent; both absent give nulls. -/
theorem c9_amended_witness :
    volQuoteStr ⟨none, none, some "5", none, none, none⟩ = some "5"
    ∧ volQuoteStr ⟨none, none, some "", none, some "x", none⟩ = some "x"
    ∧ parseOi [⟨some "7", none⟩]
        = .ok (some (partsVal ⟨false, 7, 0, 0, false, 0⟩), some "USD")
    ∧ parseOi [⟨none, some "9"⟩]
        = .ok (some (partsVal ⟨false, 9, 0, 0, false, 0⟩), some "contracts")
    ∧ parseOi [⟨none, none⟩] = .ok (none, none) :=
  ⟨c9_amended.1 ⟨none, none, some "5", none, none, none⟩ "5" rfl (by decide),
   c9_amended.2.2.1 ⟨none, none, some "", none, some "x", none⟩ (Or.inr rfl)
     (Or.inl rfl),
   c9_amended.2.2.2.1 ⟨some "7", none⟩ [] "7"
     (partsVal ⟨false, 7, 0, 0, false, 0⟩) rfl rfl,
   c9_amended.2.2.2.2.1 ⟨none, some "9"⟩ [] "9"
     (partsVal ⟨false, 9, 0, 0, false, 0⟩) rfl rfl rfl,
   c9_amended.2.2.2.2.2.1 ⟨none, none⟩ [] rfl rfl⟩
